import Mathlib

/-!
Shallow embedding of the two pure domain-logic components of the
icon-magic-hub food-expiry tracker:

* `src/utils/expiryRules.ts` — the keyword-based expiry-rule resolver
  (`expiryRules`, `findExpiryRule`, `calculateExpiryDate`);
* `src/utils/notifications.ts` — the produce rot-prediction calculator
  (`produceDatabase`, `predictRotDate`).

JavaScript numbers are modelled by `ℚ` (the source arithmetic is a chain of
multiplications by decimal constants and tier comparisons, all exact over the
rationals), `Math.round` by `⌊q + 1/2⌋` (round half toward +∞), and
JavaScript `Date` calendar arithmetic (`setDate(getDate() + n)`) by a
proleptic-Gregorian `Date` structure with a day-successor function iterated
`n` times.  The ambient clock (`new Date()` inside `predictRotDate`) is made
an explicit `today : Date` argument.
-/

/-! ## Calendar dates -/

/-- A calendar date, year/month/day, as JavaScript `Date` presents one. -/
structure Date where
  year : Int
  month : Int
  day : Int
deriving Repr, DecidableEq

/-- Gregorian leap-year rule, as JavaScript `Date` implements it. -/
def isLeapYear (y : Int) : Bool :=
  (y % 4 == 0 && y % 100 != 0) || (y % 400 == 0)

/-- Number of days of month `m` of year `y` in the proleptic Gregorian
calendar. -/
def daysInMonth (y m : Int) : Int :=
  if m == 2 then (if isLeapYear y then 29 else 28)
  else if m == 4 || m == 6 || m == 9 || m == 11 then 30
  else 31

/-- The next calendar day, with month and year rollover. -/
def Date.next (d : Date) : Date :=
  if d.day < daysInMonth d.year d.month then ⟨d.year, d.month, d.day + 1⟩
  else if d.month < 12 then ⟨d.year, d.month + 1, 1⟩
  else ⟨d.year + 1, 1, 1⟩

/-- Add `n` calendar days: `n` iterations of `Date.next`.  This models the
JavaScript idiom `date.setDate(date.getDate() + n)` for `n ≥ 0`. -/
def Date.addDays (d : Date) : Nat → Date
  | 0 => d
  | n + 1 => (d.addDays n).next

/-- Strict chronological order on dates (lexicographic on
year, month, day). -/
def Date.ltProp (a b : Date) : Prop :=
  a.year < b.year ∨
    (a.year = b.year ∧ (a.month < b.month ∨ (a.month = b.month ∧ a.day < b.day)))

instance (a b : Date) : Decidable (Date.ltProp a b) := by
  unfold Date.ltProp; infer_instance

/-! ## String helpers

`String.toLower`/`String.includes` from the source are re-implemented over
character lists so that the kernel can evaluate them on literals; the case
mapping is the ASCII one, which is what both the rule keywords and the
produce keys exercise. -/

/-- ASCII lower-casing of one character (`A`–`Z` map to `a`–`z`). -/
def lowerChar (c : Char) : Char :=
  if 65 ≤ c.toNat ∧ c.toNat ≤ 90 then Char.ofNat (c.toNat + 32) else c

/-- `itemName.toLowerCase()` of the source, character by character. -/
def lowerStr (s : String) : String :=
  String.mk (s.data.map lowerChar)

/-- Is `pat` a contiguous run of `l`?  Scans every suffix, as
`String.prototype.includes` does. -/
def listIsInfix (pat : List Char) : List Char → Bool
  | [] => pat.isEmpty
  | c :: rest => pat.isPrefixOf (c :: rest) || listIsInfix pat rest

/-- `s.includes(pat)` of the source. -/
def strContains (s pat : String) : Bool :=
  listIsInfix pat.data s.data

/-! ## ExpiryRuleResolver (`src/utils/expiryRules.ts`) -/

/-- One entry of the keyword-based expiry-rule table. -/
structure ExpiryRule where
  keywords : List String
  daysUntilExpiry : Nat
  category : String
deriving Repr, DecidableEq

/-- The `expiryRules` table, in declared order. -/
def expiryRules : List ExpiryRule := [
  -- Dairy products
  ⟨["milk", "doodh"], 3, "Dairy"⟩,
  ⟨["curd", "dahi", "yogurt", "yoghurt"], 5, "Dairy"⟩,
  ⟨["paneer", "cottage cheese"], 3, "Dairy"⟩,
  ⟨["butter", "ghee"], 30, "Dairy"⟩,
  ⟨["cheese"], 14, "Dairy"⟩,
  -- Vegetables
  ⟨["tomato", "tamatar"], 5, "Vegetables"⟩,
  ⟨["potato", "aloo"], 14, "Vegetables"⟩,
  ⟨["onion", "pyaz"], 14, "Vegetables"⟩,
  ⟨["carrot", "gajar"], 7, "Vegetables"⟩,
  ⟨["cabbage", "patta gobi"], 7, "Vegetables"⟩,
  ⟨["cauliflower", "phool gobi"], 5, "Vegetables"⟩,
  ⟨["spinach", "palak"], 3, "Vegetables"⟩,
  ⟨["brinjal", "baingan", "eggplant"], 5, "Vegetables"⟩,
  ⟨["capsicum", "bell pepper", "shimla mirch"], 5, "Vegetables"⟩,
  -- Fruits
  ⟨["apple", "seb"], 7, "Fruits"⟩,
  ⟨["banana", "kela"], 3, "Fruits"⟩,
  ⟨["orange", "santara"], 7, "Fruits"⟩,
  ⟨["mango", "aam"], 5, "Fruits"⟩,
  ⟨["grapes", "angoor"], 5, "Fruits"⟩,
  -- Meat & Fish
  ⟨["chicken", "murgi"], 2, "Meat"⟩,
  ⟨["mutton", "lamb", "goat"], 2, "Meat"⟩,
  ⟨["fish", "machli"], 1, "Meat"⟩,
  ⟨["prawn", "shrimp", "jhinga"], 1, "Meat"⟩,
  -- Bread & Bakery
  ⟨["bread", "pav"], 3, "Bakery"⟩,
  ⟨["cake"], 3, "Bakery"⟩,
  -- Eggs
  ⟨["egg", "anda"], 14, "Eggs"⟩]

/-- `rule.keywords.some(keyword => lowerName.includes(keyword))` — does any
keyword of `rule` occur in the (already lower-cased) name? -/
def ruleMatches (lowerName : String) (rule : ExpiryRule) : Bool :=
  rule.keywords.any (fun keyword => strContains lowerName keyword)

/-- `findExpiryRule` of the source: lower-case the name and return the first
rule of the table with a matching keyword, `none` if there is none. -/
def findExpiryRule (itemName : String) : Option ExpiryRule :=
  let lowerName := lowerStr itemName
  expiryRules.find? (fun rule => ruleMatches lowerName rule)

/-- `calculateExpiryDate` of the source.  The JavaScript
`rule?.daysUntilExpiry || 7` yields 7 both when no rule matched and when the
matched rule's day count is the falsy `0`; the embedding keeps both cases. -/
def calculateExpiryDate (itemName : String) (purchaseDate : Date) : Date :=
  let daysToAdd : Nat :=
    match findExpiryRule itemName with
    | some rule => if rule.daysUntilExpiry = 0 then 7 else rule.daysUntilExpiry
    | none => 7
  purchaseDate.addDays daysToAdd

/-! ## RotPredictor (`src/utils/notifications.ts`) -/

inductive Packaging
  | none | plastic | paper | sealed | refrigerated
deriving Repr, DecidableEq

inductive Damage
  | none | minor | moderate | severe
deriving Repr, DecidableEq

inductive Ripeness
  | unripe | ripe | overripe
deriving Repr, DecidableEq

/-- `StorageConditions` of the source. -/
structure StorageConditions where
  temperature : ℚ
  humidity : ℚ
  packaging : Packaging
  damage : Damage
  ripeness : Ripeness
deriving Repr, DecidableEq

/-- `ProduceInfo` of the source. -/
structure ProduceInfo where
  name : String
  baseShelfLife : Nat
  optimalTemp : ℚ
  optimalHumidity : ℚ
  ethyleneProducer : Bool
  ethyleneSensitive : Bool
deriving Repr, DecidableEq

/-- The `produceDatabase` table: key–record pairs in declared order. -/
def produceDatabase : List (String × ProduceInfo) := [
  -- Fruits
  ("apple", ⟨"Apple", 30, 1, 90, true, false⟩),
  ("banana", ⟨"Banana", 7, 13, 90, true, true⟩),
  ("orange", ⟨"Orange", 21, 4, 90, false, false⟩),
  ("mango", ⟨"Mango", 10, 13, 90, true, true⟩),
  ("grapes", ⟨"Grapes", 14, 0, 90, false, true⟩),
  ("strawberry", ⟨"Strawberry", 5, 0, 95, false, true⟩),
  ("watermelon", ⟨"Watermelon", 14, 10, 85, false, true⟩),
  ("papaya", ⟨"Papaya", 7, 10, 90, true, true⟩),
  ("pineapple", ⟨"Pineapple", 5, 7, 90, false, false⟩),
  ("avocado", ⟨"Avocado", 7, 7, 90, true, true⟩),
  -- Vegetables
  ("tomato", ⟨"Tomato", 7, 13, 90, true, true⟩),
  ("potato", ⟨"Potato", 30, 7, 95, false, true⟩),
  ("onion", ⟨"Onion", 30, 0, 65, false, false⟩),
  ("carrot", ⟨"Carrot", 21, 0, 98, false, true⟩),
  ("spinach", ⟨"Spinach", 7, 0, 95, false, true⟩),
  ("broccoli", ⟨"Broccoli", 14, 0, 95, false, true⟩),
  ("cucumber", ⟨"Cucumber", 10, 10, 95, false, true⟩),
  ("capsicum", ⟨"Capsicum", 14, 7, 95, false, true⟩),
  ("cabbage", ⟨"Cabbage", 21, 0, 98, false, true⟩),
  ("cauliflower", ⟨"Cauliflower", 14, 0, 95, false, true⟩),
  ("lettuce", ⟨"Lettuce", 7, 0, 98, false, true⟩),
  ("eggplant", ⟨"Eggplant", 7, 10, 90, false, true⟩)]

/-- `produceDatabase[produceKey]`, as a map lookup of the `Record`. -/
def lookupProduce (key : String) : Option ProduceInfo :=
  (produceDatabase.find? (fun e => e.1 == key)).map (fun e => e.2)

/-- The `factors` record of a `RotPrediction`. -/
structure RotFactors where
  temperatureImpact : String
  humidityImpact : String
  packagingImpact : String
  damageImpact : String
  ripenessImpact : String
  ethyleneNote : String
deriving Repr, DecidableEq

/-- `RotPrediction` of the source.  `daysLeft` is an integer
(`Math.max(1, Math.round(...))`). -/
structure RotPrediction where
  daysLeft : Int
  rotDate : Date
  explanation : String
  factors : RotFactors
deriving Repr, DecidableEq

/-- `Math.round`: round half toward positive infinity. -/
def jsRound (q : ℚ) : Int := ⌊q + 1 / 2⌋

/-- Temperature block of `predictRotDate`: given
`|conditions.temperature − produce.optimalTemp|`, the shelf-life multiplier
(1 where the source leaves the accumulator unchanged) and the impact
string. -/
def tempAdjust (diff : ℚ) : ℚ × String :=
  if diff ≤ 2 then (1, "Optimal temperature maintained")
  else if diff ≤ 5 then (0.85, "Slightly suboptimal temperature (-15% shelf life)")
  else if diff ≤ 10 then (0.65, "Poor temperature control accelerates decay (-35% shelf life)")
  else (0.4, "Extreme temperature stress causes rapid spoilage (-60% shelf life)")

/-- Humidity block of `predictRotDate`. -/
def humidityAdjust (diff : ℚ) : ℚ × String :=
  if diff ≤ 5 then (1, "Ideal humidity level")
  else if diff ≤ 15 then (0.9, "Slightly off humidity (-10% shelf life)")
  else if diff ≤ 30 then (0.75, "Humidity imbalance promotes microbial growth (-25% shelf life)")
  else (0.5, "Extreme humidity causes rapid deterioration (-50% shelf life)")

/-- Packaging block of `predictRotDate`. -/
def packagingAdjust : Packaging → ℚ × String
  | Packaging.refrigerated => (1.2, "Refrigeration extends freshness (+20% shelf life)")
  | Packaging.sealed => (1.1, "Sealed packaging reduces air exposure (+10% shelf life)")
  | Packaging.plastic => (0.95, "Plastic may trap moisture (-5% shelf life)")
  | Packaging.paper => (1, "Paper allows breathing, neutral impact")
  | Packaging.none => (0.85, "No packaging increases air exposure (-15% shelf life)")

/-- Damage block of `predictRotDate`. -/
def damageAdjust : Damage → ℚ × String
  | Damage.none => (1, "No physical damage detected")
  | Damage.minor => (0.8, "Minor bruising creates entry points for bacteria (-20% shelf life)")
  | Damage.moderate => (0.5, "Moderate damage accelerates enzymatic browning (-50% shelf life)")
  | Damage.severe => (0.25, "Severe damage causes rapid microbial invasion (-75% shelf life)")

/-- Ripeness block of `predictRotDate`. -/
def ripenessAdjust : Ripeness → ℚ × String
  | Ripeness.unripe => (1.3, "Unripe produce has longer shelf life (+30%)")
  | Ripeness.ripe => (1, "Ripe produce at peak freshness window")
  | Ripeness.overripe => (0.4, "Overripe stage means rapid deterioration (-60% shelf life)")

/-- The ethylene note of `predictRotDate`: producer template, else sensitive
template, else the neutral one. -/
def mkEthyleneNote (produce : ProduceInfo) : String :=
  if produce.ethyleneProducer then
    produce.name ++ " produces ethylene gas which speeds ripening of nearby produce"
  else if produce.ethyleneSensitive then
    produce.name ++ " is sensitive to ethylene - keep away from bananas, apples, and tomatoes"
  else
    produce.name ++ " has low ethylene interaction"

/-- Body of `predictRotDate` after the successful table lookup: the sequential
multiplicative accumulator, the rounded and floored `daysLeft`, the rot date
`today + daysLeft` and all explanation strings. -/
def predictRotDateAux (produce : ProduceInfo) (conditions : StorageConditions)
    (today : Date) : RotPrediction :=
  let t := tempAdjust |conditions.temperature - produce.optimalTemp|
  let h := humidityAdjust |conditions.humidity - produce.optimalHumidity|
  let p := packagingAdjust conditions.packaging
  let d := damageAdjust conditions.damage
  let r := ripenessAdjust conditions.ripeness
  let shelfLife : ℚ := (produce.baseShelfLife : ℚ) * t.1 * h.1 * p.1 * d.1 * r.1
  let daysLeft : Int := max 1 (jsRound shelfLife)
  { daysLeft := daysLeft
    rotDate := today.addDays daysLeft.toNat
    explanation :=
      "Based on " ++ produce.name ++ "'s natural shelf life of " ++
        toString produce.baseShelfLife ++
        " days under optimal conditions (" ++ toString produce.optimalTemp ++
        "Â°C, " ++ toString produce.optimalHumidity ++
        "% humidity), your current storage conditions predict approximately " ++
        toString daysLeft ++ " days until spoilage. Key factors: " ++
        t.2 ++ ". " ++ h.2 ++ ". " ++ d.2 ++ ". " ++
        (if produce.ethyleneProducer then
          "This produce emits ethylene, accelerating ripening." else "") ++
        " Microbial growth rate increases with temperature deviation and physical damage."
    factors :=
      { temperatureImpact := t.2
        humidityImpact := h.2
        packagingImpact := p.2
        damageImpact := d.2
        ripenessImpact := r.2
        ethyleneNote := mkEthyleneNote produce } }

/-- `predictRotDate` of the source; `throw new Error('Unknown produce type')`
becomes the `Except.error` branch, and the ambient `new Date()` the explicit
`today` argument. -/
def predictRotDate (produceKey : String) (conditions : StorageConditions)
    (today : Date) : Except String RotPrediction :=
  match lookupProduce produceKey with
  | none => Except.error "Unknown produce type"
  | some produce => Except.ok (predictRotDateAux produce conditions today)

/-! ## Helper lemmas -/

theorem jsRound_eq_of (q : ℚ) (n : Int) (h1 : (n : ℚ) ≤ q + 1 / 2) (h2 : q + 1 / 2 < n + 1) :
    jsRound q = n := by
  unfold jsRound
  rw [Int.floor_eq_iff]
  exact ⟨h1, h2⟩

theorem jsRound_natCast (n : Nat) : jsRound (n : ℚ) = n := by
  apply jsRound_eq_of <;> push_cast <;> norm_num

theorem jsRound_mono {q1 q2 : ℚ} (h : q1 ≤ q2) : jsRound q1 ≤ jsRound q2 :=
  Int.floor_le_floor (by linarith)

theorem one_le_jsRound {q : ℚ} (h : 1 ≤ q) : 1 ≤ jsRound q := by
  unfold jsRound
  rw [Int.le_floor]
  push_cast
  linarith

theorem tempAdjust_fst (diff : ℚ) :
    (tempAdjust diff).1 =
      if diff ≤ 2 then 1 else if diff ≤ 5 then 0.85 else if diff ≤ 10 then 0.65 else 0.4 := by
  unfold tempAdjust
  split_ifs <;> rfl

theorem humidityAdjust_fst (diff : ℚ) :
    (humidityAdjust diff).1 =
      if diff ≤ 5 then 1 else if diff ≤ 15 then 0.9 else if diff ≤ 30 then 0.75 else 0.5 := by
  unfold humidityAdjust
  split_ifs <;> rfl

theorem predictRotDate_eq_ok {key : String} {p : ProduceInfo}
    (h : lookupProduce key = some p) (c : StorageConditions) (today : Date) :
    predictRotDate key c today = Except.ok (predictRotDateAux p c today) := by
  unfold predictRotDate
  rw [h]

theorem predictRotDate_ok_inv {key : String} {c : StorageConditions} {today : Date}
    {r : RotPrediction} (h : predictRotDate key c today = Except.ok r) :
    ∃ p, lookupProduce key = some p ∧ r = predictRotDateAux p c today := by
  unfold predictRotDate at h
  cases hl : lookupProduce key with
  | none => rw [hl] at h; exact absurd h (by simp)
  | some p =>
    rw [hl] at h
    exact ⟨p, rfl, (Except.ok.inj h).symm⟩

theorem predictRotDateAux_daysLeft (p : ProduceInfo) (c : StorageConditions) (today : Date) :
    (predictRotDateAux p c today).daysLeft =
      max 1 (jsRound ((p.baseShelfLife : ℚ) *
        (tempAdjust |c.temperature - p.optimalTemp|).1 *
        (humidityAdjust |c.humidity - p.optimalHumidity|).1 *
        (packagingAdjust c.packaging).1 *
        (damageAdjust c.damage).1 *
        (ripenessAdjust c.ripeness).1)) := rfl

theorem lookupProduce_base_pos {key : String} {p : ProduceInfo}
    (h : lookupProduce key = some p) : 1 ≤ p.baseShelfLife := by
  unfold lookupProduce at h
  cases hf : produceDatabase.find? (fun e => e.1 == key) with
  | none => rw [hf] at h; exact absurd h (by simp)
  | some e =>
    rw [hf] at h
    simp only [Option.map_some'] at h
    have hmem := List.mem_of_find?_eq_some hf
    have hall : ∀ e2 ∈ produceDatabase, 1 ≤ e2.2.baseShelfLife := by decide
    rw [← Option.some.inj h]
    exact hall e hmem

theorem Date.ltProp_next (d : Date) : d.ltProp d.next := by
  unfold Date.next Date.ltProp
  split_ifs with h1 h2
  · exact Or.inr ⟨rfl, Or.inr ⟨rfl, show d.day < d.day + 1 by omega⟩⟩
  · exact Or.inr ⟨rfl, Or.inl (show d.month < d.month + 1 by omega)⟩
  · exact Or.inl (show d.year < d.year + 1 by omega)

theorem Date.ltProp_trans {a b c : Date} (h1 : a.ltProp b) (h2 : b.ltProp c) : a.ltProp c := by
  unfold Date.ltProp at h1 h2 ⊢
  omega

theorem Date.ltProp_addDays (d : Date) (n : Nat) (h : 1 ≤ n) : d.ltProp (d.addDays n) := by
  induction n with
  | zero => omega
  | succ k ih =>
    rcases Nat.eq_zero_or_pos k with hk | hk
    · subst hk
      exact Date.ltProp_next d
    · exact Date.ltProp_trans (ih hk) (Date.ltProp_next (d.addDays k))

theorem tempAdjust_fst_bounds (diff : ℚ) :
    0 < (tempAdjust diff).1 ∧ (tempAdjust diff).1 ≤ 1 := by
  unfold tempAdjust
  split_ifs <;> norm_num

theorem humidityAdjust_fst_bounds (diff : ℚ) :
    0 < (humidityAdjust diff).1 ∧ (humidityAdjust diff).1 ≤ 1 := by
  unfold humidityAdjust
  split_ifs <;> norm_num

theorem packagingAdjust_fst_bounds (pk : Packaging) :
    0 < (packagingAdjust pk).1 ∧ (packagingAdjust pk).1 ≤ 1.2 := by
  cases pk <;> norm_num [packagingAdjust]

theorem damageAdjust_fst_bounds (dm : Damage) :
    0 < (damageAdjust dm).1 ∧ (damageAdjust dm).1 ≤ 1 := by
  cases dm <;> norm_num [damageAdjust]

theorem ripenessAdjust_fst_bounds (rp : Ripeness) :
    0 < (ripenessAdjust rp).1 ∧ (ripenessAdjust rp).1 ≤ 1.3 := by
  cases rp <;> norm_num [ripenessAdjust]

theorem String.append_ne_empty_of_right (a b : String) (h : b ≠ "") : a ++ b ≠ "" := by
  intro hab
  apply h
  have hdata : (a ++ b).data = ([] : List Char) := by rw [hab]
  rw [String.data_append] at hdata
  have hb := (List.append_eq_nil.mp hdata).2
  cases b with
  | mk bdata => simp_all

/-! ## Claims -/

/-- C1: for every produce key present in the reference table and every
storage-conditions value, `predictRotDate` returns
`daysLeft = max(1, round(baseShelfLife × tempMult × humidityMult ×
packagingMult × damageMult × ripenessMult))` with the multipliers given by
the spec's tier tables, applied sequentially to the accumulator; in
particular the banana example yields `daysLeft = 3`. -/
theorem C1_daysLeft_formula :
    (∀ key p c today r, lookupProduce key = some p →
        predictRotDate key c today = Except.ok r →
        r.daysLeft = max 1 (jsRound ((p.baseShelfLife : ℚ) *
          (if |c.temperature - p.optimalTemp| ≤ 2 then 1
            else if |c.temperature - p.optimalTemp| ≤ 5 then 0.85
            else if |c.temperature - p.optimalTemp| ≤ 10 then 0.65 else 0.4) *
          (if |c.humidity - p.optimalHumidity| ≤ 5 then 1
            else if |c.humidity - p.optimalHumidity| ≤ 15 then 0.9
            else if |c.humidity - p.optimalHumidity| ≤ 30 then 0.75 else 0.5) *
          (match c.packaging with
            | Packaging.refrigerated => 1.2
            | Packaging.sealed => 1.1
            | Packaging.paper => 1
            | Packaging.plastic => 0.95
            | Packaging.none => 0.85) *
          (match c.damage with
            | Damage.none => 1
            | Damage.minor => 0.8
            | Damage.moderate => 0.5
            | Damage.severe => 0.25) *
          (match c.ripeness with
            | Ripeness.unripe => 1.3
            | Ripeness.ripe => 1
            | Ripeness.overripe => 0.4)))) ∧
    (∀ today r,
        predictRotDate "banana" ⟨13, 90, Packaging.sealed, Damage.none, Ripeness.overripe⟩
            today = Except.ok r →
        r.daysLeft = 3) := by
  constructor
  · intro key p c today r hlook hok
    rw [predictRotDate_eq_ok hlook] at hok
    rw [← Except.ok.inj hok]
    rw [predictRotDateAux_daysLeft, tempAdjust_fst, humidityAdjust_fst]
    cases c.packaging <;> cases c.damage <;> cases c.ripeness <;> rfl
  · intro today r hok
    have hlook : lookupProduce "banana" = some ⟨"Banana", 7, 13, 90, true, true⟩ := rfl
    rw [predictRotDate_eq_ok hlook] at hok
    rw [← Except.ok.inj hok]
    simp only [predictRotDateAux, tempAdjust, humidityAdjust, packagingAdjust, damageAdjust,
      ripenessAdjust, sub_self, abs_zero]
    norm_num
    rw [jsRound_eq_of (77 / 25 : ℚ) 3 (by norm_num) (by norm_num)]
    norm_num

/-- Witness for C1: the formula and the banana example instantiated at
concrete inputs. -/
theorem C1_daysLeft_formula_witness :
    (predictRotDateAux ⟨"Banana", 7, 13, 90, true, true⟩
        ⟨13, 90, Packaging.sealed, Damage.none, Ripeness.overripe⟩ ⟨2025, 1, 1⟩).daysLeft = 3 :=
  C1_daysLeft_formula.2 ⟨2025, 1, 1⟩ _ rfl

/-- C2: `predictRotDate` fails with the unknown-produce error exactly when
the key is absent from the table, succeeds (returns a `RotPrediction`) for
every key present whatever the storage conditions, and an unknown key such
as `"kiwi"` always fails. -/
theorem C2_unknown_key_only_failure :
    (∀ key c today,
        ((∃ r, predictRotDate key c today = Except.ok r) ↔ (lookupProduce key).isSome = true) ∧
        (predictRotDate key c today = Except.error "Unknown produce type" ↔
          lookupProduce key = none)) ∧
    (∀ c today, predictRotDate "kiwi" c today = Except.error "Unknown produce type") := by
  constructor
  · intro key c today
    constructor
    · cases hl : lookupProduce key <;> simp [predictRotDate, hl]
    · cases hl : lookupProduce key <;> simp [predictRotDate, hl]
  · intro c today
    have hl : lookupProduce "kiwi" = none := rfl
    simp [predictRotDate, hl]

/-- C3: every successful prediction has `daysLeft ≥ 1`, its `rotDate` is the
call-time date plus `daysLeft` calendar days, and hence lies strictly in the
future. -/
theorem C3_rotDate_invariants :
    ∀ key c today r, predictRotDate key c today = Except.ok r →
      1 ≤ r.daysLeft ∧ r.rotDate = today.addDays r.daysLeft.toNat ∧
        Date.ltProp today r.rotDate := by
  intro key c today r hok
  obtain ⟨p, _, hr⟩ := predictRotDate_ok_inv hok
  subst hr
  have h1 : (1 : Int) ≤ (predictRotDateAux p c today).daysLeft := by
    rw [predictRotDateAux_daysLeft]
    exact le_max_left 1 _
  refine ⟨h1, rfl, ?_⟩
  apply Date.ltProp_addDays
  omega

/-- Witness for C3: the invariants at a concrete successful call. -/
theorem C3_rotDate_invariants_witness :
    1 ≤ (predictRotDateAux ⟨"Banana", 7, 13, 90, true, true⟩
          ⟨13, 90, Packaging.sealed, Damage.none, Ripeness.overripe⟩ ⟨2025, 1, 1⟩).daysLeft ∧
    (predictRotDateAux ⟨"Banana", 7, 13, 90, true, true⟩
          ⟨13, 90, Packaging.sealed, Damage.none, Ripeness.overripe⟩ ⟨2025, 1, 1⟩).rotDate =
      Date.addDays ⟨2025, 1, 1⟩
        (predictRotDateAux ⟨"Banana", 7, 13, 90, true, true⟩
          ⟨13, 90, Packaging.sealed, Damage.none, Ripeness.overripe⟩ ⟨2025, 1, 1⟩).daysLeft.toNat ∧
    Date.ltProp ⟨2025, 1, 1⟩
      (predictRotDateAux ⟨"Banana", 7, 13, 90, true, true⟩
        ⟨13, 90, Packaging.sealed, Damage.none, Ripeness.overripe⟩ ⟨2025, 1, 1⟩).rotDate :=
  C3_rotDate_invariants "banana"
    ⟨13, 90, Packaging.sealed, Damage.none, Ripeness.overripe⟩ ⟨2025, 1, 1⟩ _ rfl

/-- C4: `findExpiryRule` lower-cases its input and scans the table in
declared order: a returned rule matches and every rule declared before it
does not (so ambiguous inputs resolve to the earlier rule), `none` is
returned exactly when no rule matches (the function is total, it never
throws), and `"Fresh Aloo 1kg"` resolves to the Vegetables rule with
`daysUntilExpiry = 14`. -/
theorem C4_first_match_wins :
    (∀ text r, findExpiryRule text = some r →
        ruleMatches (lowerStr text) r = true ∧
        ∃ pre post, expiryRules = pre ++ r :: post ∧
          ∀ r2 ∈ pre, ruleMatches (lowerStr text) r2 = false) ∧
    (∀ text, findExpiryRule text = none ↔
        ∀ r ∈ expiryRules, ruleMatches (lowerStr text) r = false) ∧
    findExpiryRule "Fresh Aloo 1kg" = some ⟨["potato", "aloo"], 14, "Vegetables"⟩ := by
  refine ⟨?_, ?_, by decide⟩
  · intro text r hfind
    have h := List.find?_eq_some.mp hfind
    obtain ⟨hmatch, pre, post, heq, hpre⟩ := h
    refine ⟨hmatch, pre, post, heq, ?_⟩
    intro r2 hr2
    have := hpre r2 hr2
    simpa using this
  · intro text
    unfold findExpiryRule
    rw [List.find?_eq_none]
    constructor
    · intro h r hr
      simpa using h r hr
    · intro h r hr
      simp [h r hr]

/-- Witness for C4: the first-match characterization applied to the
`"Fresh Aloo 1kg"` example. -/
theorem C4_first_match_wins_witness :
    ruleMatches (lowerStr "Fresh Aloo 1kg") ⟨["potato", "aloo"], 14, "Vegetables"⟩ = true ∧
    ∃ pre post, expiryRules = pre ++ (⟨["potato", "aloo"], 14, "Vegetables"⟩ : ExpiryRule) :: post ∧
      ∀ r2 ∈ pre, ruleMatches (lowerStr "Fresh Aloo 1kg") r2 = false :=
  C4_first_match_wins.1 "Fresh Aloo 1kg" ⟨["potato", "aloo"], 14, "Vegetables"⟩ (by decide)

/-- C5: `calculateExpiryDate` adds the matched rule's `daysUntilExpiry`
calendar days to the purchase date, or a fixed 7 days when no rule matches;
it never throws, handles month rollover, and reproduces the Milk and
fallback examples. -/
theorem C5_calculateExpiryDate_spec :
    (∀ text d, calculateExpiryDate text d =
        d.addDays (match findExpiryRule text with
          | some r => r.daysUntilExpiry
          | none => 7)) ∧
    calculateExpiryDate "Milk" ⟨2025, 1, 1⟩ = ⟨2025, 1, 4⟩ ∧
    calculateExpiryDate "Xyzzy unknown item" ⟨2025, 1, 1⟩ = ⟨2025, 1, 8⟩ ∧
    calculateExpiryDate "Milk" ⟨2025, 1, 30⟩ = ⟨2025, 2, 2⟩ := by
  refine ⟨?_, by decide, by decide, by decide⟩
  intro text d
  unfold calculateExpiryDate
  cases hf : findExpiryRule text with
  | none => rfl
  | some r =>
    have hmem : r ∈ expiryRules := List.mem_of_find?_eq_some hf
    have hall : ∀ r2 ∈ expiryRules, r2.daysUntilExpiry ≠ 0 := by decide
    simp [hall r hmem]

/-- C6: conditions exactly at the produce's optimum with paper packaging, no
damage and ripe ripeness hit the ×1.0 branch of every factor, so `daysLeft`
equals the produce's base shelf life, for every key in the table. -/
theorem C6_optimal_yields_base :
    ∀ key p today r, lookupProduce key = some p →
      predictRotDate key
          ⟨p.optimalTemp, p.optimalHumidity, Packaging.paper, Damage.none, Ripeness.ripe⟩ today =
        Except.ok r →
      r.daysLeft = (p.baseShelfLife : Int) := by
  intro key p today r hlook hok
  rw [predictRotDate_eq_ok hlook] at hok
  rw [← Except.ok.inj hok]
  rw [predictRotDateAux_daysLeft]
  dsimp only
  simp only [sub_self, abs_zero]
  norm_num [tempAdjust, humidityAdjust, packagingAdjust, damageAdjust, ripenessAdjust]
  rw [jsRound_natCast]
  have hpos := lookupProduce_base_pos hlook
  omega

/-- Witness for C6: the apple entry at its optimal conditions yields its base
shelf life of 30 days. -/
theorem C6_optimal_yields_base_witness :
    (predictRotDateAux ⟨"Apple", 30, 1, 90, true, false⟩
        ⟨1, 90, Packaging.paper, Damage.none, Ripeness.ripe⟩ ⟨2025, 1, 1⟩).daysLeft = (30 : Int) :=
  C6_optimal_yields_base "apple" ⟨"Apple", 30, 1, 90, true, false⟩ ⟨2025, 1, 1⟩ _ rfl rfl

/-- C7 counterexample: the produce reference table does not have 23 entries
(it has 22: ten fruits and twelve vegetables). -/
theorem C7_entry_count_counterexample : produceDatabase.length ≠ 23 := by decide

/-- C7 (amended): the static produce reference table contains exactly 22
entries, each with a positive `baseShelfLife` and keyed by a stable lowercase
identifier (each key equals its own lower-casing). -/
theorem C7_table_shape :
    produceDatabase.length = 22 ∧
    produceDatabase.all
      (fun e => decide (0 < e.2.baseShelfLife) && (lowerStr e.1 == e.1)) = true := by
  decide

/-- C8: every successful prediction populates all five factor strings and
the ethylene note with non-empty text, and the ethylene note is the producer
template when `ethyleneProducer` holds, else the sensitive template when
`ethyleneSensitive` holds, else the neutral template. -/
theorem C8_factors_populated :
    ∀ key p c today r, lookupProduce key = some p →
      predictRotDate key c today = Except.ok r →
      (r.factors.temperatureImpact ≠ "" ∧ r.factors.humidityImpact ≠ "" ∧
        r.factors.packagingImpact ≠ "" ∧ r.factors.damageImpact ≠ "" ∧
        r.factors.ripenessImpact ≠ "" ∧ r.factors.ethyleneNote ≠ "") ∧
      r.factors.ethyleneNote =
        (if p.ethyleneProducer = true then
          p.name ++ " produces ethylene gas which speeds ripening of nearby produce"
        else if p.ethyleneSensitive = true then
          p.name ++ " is sensitive to ethylene - keep away from bananas, apples, and tomatoes"
        else p.name ++ " has low ethylene interaction") := by
  intro key p c today r hlook hok
  rw [predictRotDate_eq_ok hlook] at hok
  rw [← Except.ok.inj hok]
  refine ⟨⟨?_, ?_, ?_, ?_, ?_, ?_⟩, ?_⟩
  · show (tempAdjust |c.temperature - p.optimalTemp|).2 ≠ ""
    unfold tempAdjust
    split_ifs <;> decide
  · show (humidityAdjust |c.humidity - p.optimalHumidity|).2 ≠ ""
    unfold humidityAdjust
    split_ifs <;> decide
  · show (packagingAdjust c.packaging).2 ≠ ""
    cases c.packaging <;> decide
  · show (damageAdjust c.damage).2 ≠ ""
    cases c.damage <;> decide
  · show (ripenessAdjust c.ripeness).2 ≠ ""
    cases c.ripeness <;> decide
  · show mkEthyleneNote p ≠ ""
    unfold mkEthyleneNote
    split_ifs <;> apply String.append_ne_empty_of_right <;> decide
  · rfl

/-- Witness for C8: the populated factors of the banana prediction. -/
theorem C8_factors_populated_witness :
    (((predictRotDateAux ⟨"Banana", 7, 13, 90, true, true⟩
        ⟨13, 90, Packaging.sealed, Damage.none, Ripeness.overripe⟩
        ⟨2025, 1, 1⟩).factors.temperatureImpact ≠ "" ∧
      (predictRotDateAux ⟨"Banana", 7, 13, 90, true, true⟩
        ⟨13, 90, Packaging.sealed, Damage.none, Ripeness.overripe⟩
        ⟨2025, 1, 1⟩).factors.humidityImpact ≠ "" ∧
      (predictRotDateAux ⟨"Banana", 7, 13, 90, true, true⟩
        ⟨13, 90, Packaging.sealed, Damage.none, Ripeness.overripe⟩
        ⟨2025, 1, 1⟩).factors.packagingImpact ≠ "" ∧
      (predictRotDateAux ⟨"Banana", 7, 13, 90, true, true⟩
        ⟨13, 90, Packaging.sealed, Damage.none, Ripeness.overripe⟩
        ⟨2025, 1, 1⟩).factors.damageImpact ≠ "" ∧
      (predictRotDateAux ⟨"Banana", 7, 13, 90, true, true⟩
        ⟨13, 90, Packaging.sealed, Damage.none, Ripeness.overripe⟩
        ⟨2025, 1, 1⟩).factors.ripenessImpact ≠ "" ∧
      (predictRotDateAux ⟨"Banana", 7, 13, 90, true, true⟩
        ⟨13, 90, Packaging.sealed, Damage.none, Ripeness.overripe⟩
        ⟨2025, 1, 1⟩).factors.ethyleneNote ≠ "") ∧
      (predictRotDateAux ⟨"Banana", 7, 13, 90, true, true⟩
        ⟨13, 90, Packaging.sealed, Damage.none, Ripeness.overripe⟩
        ⟨2025, 1, 1⟩).factors.ethyleneNote =
        (if (true : Bool) = true then
          "Banana" ++ " produces ethylene gas which speeds ripening of nearby produce"
        else if (true : Bool) = true then
          "Banana" ++ " is sensitive to ethylene - keep away from bananas, apples, and tomatoes"
        else "Banana" ++ " has low ethylene interaction")) :=
  C8_factors_populated "banana" ⟨"Banana", 7, 13, 90, true, true⟩
    ⟨13, 90, Packaging.sealed, Damage.none, Ripeness.overripe⟩ ⟨2025, 1, 1⟩ _ rfl rfl

/-- C9: implicit upper bound — since refrigerated packaging (×1.2) and
unripe ripeness (×1.3) are the only multipliers above 1 and every other
factor multiplier is at most 1, `daysLeft` never exceeds
`round(baseShelfLife × 1.2 × 1.3)`. -/
theorem C9_daysLeft_upper_bound :
    ∀ key p c today r, lookupProduce key = some p →
      predictRotDate key c today = Except.ok r →
      r.daysLeft ≤ jsRound ((p.baseShelfLife : ℚ) * 1.2 * 1.3) := by
  intro key p c today r hlook hok
  rw [predictRotDate_eq_ok hlook] at hok
  rw [← Except.ok.inj hok]
  rw [predictRotDateAux_daysLeft]
  obtain ⟨ht0, ht1⟩ := tempAdjust_fst_bounds |c.temperature - p.optimalTemp|
  obtain ⟨hh0, hh1⟩ := humidityAdjust_fst_bounds |c.humidity - p.optimalHumidity|
  obtain ⟨hp0, hp1⟩ := packagingAdjust_fst_bounds c.packaging
  obtain ⟨hd0, hd1⟩ := damageAdjust_fst_bounds c.damage
  obtain ⟨hr0, hr1⟩ := ripenessAdjust_fst_bounds c.ripeness
  have hb0 : (0 : ℚ) ≤ (p.baseShelfLife : ℚ) := by positivity
  have hb1 : (1 : ℚ) ≤ (p.baseShelfLife : ℚ) := by
    exact_mod_cast lookupProduce_base_pos hlook
  have hS : (p.baseShelfLife : ℚ) *
      (tempAdjust |c.temperature - p.optimalTemp|).1 *
      (humidityAdjust |c.humidity - p.optimalHumidity|).1 *
      (packagingAdjust c.packaging).1 *
      (damageAdjust c.damage).1 *
      (ripenessAdjust c.ripeness).1 ≤ (p.baseShelfLife : ℚ) * 1.2 * 1.3 := by
    have step : (p.baseShelfLife : ℚ) *
        (tempAdjust |c.temperature - p.optimalTemp|).1 *
        (humidityAdjust |c.humidity - p.optimalHumidity|).1 *
        (packagingAdjust c.packaging).1 *
        (damageAdjust c.damage).1 *
        (ripenessAdjust c.ripeness).1 ≤
          (p.baseShelfLife : ℚ) * 1 * 1 * 1.2 * 1 * 1.3 := by
      gcongr
    calc _ ≤ (p.baseShelfLife : ℚ) * 1 * 1 * 1.2 * 1 * 1.3 := step
    _ = (p.baseShelfLife : ℚ) * 1.2 * 1.3 := by ring
  have hround : 1 ≤ jsRound ((p.baseShelfLife : ℚ) * 1.2 * 1.3) := by
    apply one_le_jsRound
    nlinarith
  exact max_le hround (jsRound_mono hS)

/-- Witness for C9: the bound at the banana prediction (3 ≤ round(7 × 1.56) = 11). -/
theorem C9_daysLeft_upper_bound_witness :
    (predictRotDateAux ⟨"Banana", 7, 13, 90, true, true⟩
        ⟨13, 90, Packaging.sealed, Damage.none, Ripeness.overripe⟩ ⟨2025, 1, 1⟩).daysLeft ≤
      jsRound ((7 : ℚ) * 1.2 * 1.3) :=
  C9_daysLeft_upper_bound "banana" ⟨"Banana", 7, 13, 90, true, true⟩
    ⟨13, 90, Packaging.sealed, Damage.none, Ripeness.overripe⟩ ⟨2025, 1, 1⟩ _ rfl rfl

/-- C10: implicit — the expiry date returned by `calculateExpiryDate` is
always strictly later than the purchase date (at least one calendar day):
every rule of the table has `daysUntilExpiry ≥ 1` and the fallback adds 7. -/
theorem C10_expiry_strictly_later :
    (∀ text d, Date.ltProp d (calculateExpiryDate text d) ∧
        ∃ n, 1 ≤ n ∧ calculateExpiryDate text d = d.addDays n) ∧
    expiryRules.all (fun r => decide (1 ≤ r.daysUntilExpiry)) = true := by
  refine ⟨?_, by decide⟩
  intro text d
  unfold calculateExpiryDate
  cases hf : findExpiryRule text with
  | none =>
    exact ⟨Date.ltProp_addDays d 7 (by omega), 7, by omega, rfl⟩
  | some r =>
    have hmem := List.mem_of_find?_eq_some hf
    have hall : ∀ r2 ∈ expiryRules, 1 ≤ r2.daysUntilExpiry := by decide
    have h1 := hall r hmem
    have hne : ¬ (r.daysUntilExpiry = 0) := by omega
    show d.ltProp (d.addDays (if r.daysUntilExpiry = 0 then 7 else r.daysUntilExpiry)) ∧
      ∃ n, 1 ≤ n ∧
        d.addDays (if r.daysUntilExpiry = 0 then 7 else r.daysUntilExpiry) = d.addDays n
    rw [if_neg hne]
    exact ⟨Date.ltProp_addDays d _ h1, r.daysUntilExpiry, h1, rfl⟩
